import Mathlib

/-!
Verification of the Visual lifecycle / caching layer of colour-analysis-three.js.

This file gives a shallow embedding of the JavaScript sources of the
colour-analysis-three.js repository and proves (or refutes) the frozen claims
about its specification.

The embedding conventions:

* JavaScript objects become Lean structures; `this._field` mutation becomes
  record update, so every class method is a pure function from the old state
  to the new state.
* The THREE.js parent node is represented by the list of its children that
  carry renderables; `parent.add(o)` appends, `removeObjectByName` filters.
* A JS object used as a dictionary (the per-Visual `cache`) becomes an
  association list with JS-object update semantics (replace the existing key
  in place, otherwise append).
* `throw new Error(...)` becomes `Except.error` with the exact message; a
  setter that can throw returns `Except String State`, and an error result
  means the state is unchanged (the exception aborts before any mutation).
* Asynchronous `loader.load(route, callback)` is split into two steps: issuing
  the request (recorded in a `pending` list together with a `fetchCount`
  counter) and the later arrival of the response, which runs the callback
  body.  The geometry payload of a response is an uninterpreted `Nat`.
* Numeric material attributes (opacity, point size) are represented by `Rat`;
  no floating-point arithmetic is performed on them anywhere in the modelled
  code, they are only stored and copied.
-/

/-- JS `settings.x || d` for an optional string setting: `undefined` and the
empty string are falsy. -/
def jsOrString (v : Option String) (d : String) : String :=
  match v with
  | none => d
  | some s => if s = "" then d else s

/-- JS `settings.x || d` for an optional boolean setting: `undefined` and
`false` are falsy, so the default is returned for both. -/
def jsOrBool (v : Option Bool) (d : Bool) : Bool :=
  match v with
  | none => d
  | some b => if b then b else d

/-- JS template interpolation of a boolean. -/
def boolStr (b : Bool) : String :=
  if b then "true" else "false"

/-- JS template interpolation of a value that may be `undefined`
(`` `${undefined}` `` is the string "undefined"). -/
def showOptNat (v : Option Nat) : String :=
  match v with
  | none => "undefined"
  | some n => toString n

/-- Uppercase hexadecimal digit, as used by `encodeURIComponent`. -/
def hexDigitChar (n : Nat) : Char :=
  if n < 10 then Char.ofNat (48 + n) else Char.ofNat (55 + n)

/-- Percent-encoding of one byte, uppercase, e.g. `%20`. -/
def percentByte (b : Nat) : String :=
  String.mk ['%', hexDigitChar (b / 16), hexDigitChar (b % 16)]

/-- UTF-8 bytes of a Unicode code point. -/
def utf8Bytes (c : Char) : List Nat :=
  let n := c.toNat
  if n < 0x80 then [n]
  else if n < 0x800 then [0xC0 + n / 64, 0x80 + n % 64]
  else if n < 0x10000 then [0xE0 + n / 4096, 0x80 + (n / 64) % 64, 0x80 + n % 64]
  else [0xF0 + n / 262144, 0x80 + (n / 4096) % 64, 0x80 + (n / 64) % 64, 0x80 + n % 64]

/-- The characters `encodeURIComponent` leaves unescaped:
`A-Z a-z 0-9 - _ . ! ~ * ' ( )`. -/
def isUriUnescaped (c : Char) : Bool :=
  c.isAlphanum || c ∈ ['-', '_', '.', '!', '~', '*', Char.ofNat 39, '(', ')']

/-- JS `encodeURIComponent`: keep unescaped characters, percent-encode the
UTF-8 bytes of every other character. -/
def encodeURIComponent (s : String) : String :=
  String.join (s.toList.map (fun c =>
    if isUriUnescaped c then String.mk [c]
    else String.join ((utf8Bytes c).map percentByte)))

/-- Function `serverRoute` from `common.js`: prepend the global `window.colourAnalysisServer` to the route when that
global is defined. -/
def serverRoute (server : Option String) (route : String) : String :=
  match server with
  | some s => s ++ route
  | none => route

/-- A THREE.js renderable object as far as the modelled code observes it:
its scene-graph `name`, its `visible` flag, the material attributes the
setters mutate, and the fetched geometry payload. -/
structure Renderable where
  name : String
  visible : Bool
  opacity : Rat
  wireframe : Bool
  size : Rat
  geometry : Nat
deriving DecidableEq, Repr

/-- Function `removeObjectByName` from `common.js`: repeatedly removes every child
with the given name from the parent node. -/
def removeObjectByName (children : List Renderable) (name : String) : List Renderable :=
  children.filter (fun o => !(o.name == name))

/-- Lookup in a JS object used as a dictionary (the Visual `cache`). -/
def cacheLookup (c : List (String × Renderable)) (r : String) : Option Renderable :=
  match c with
  | [] => none
  | (k, v) :: rest => if k = r then some v else cacheLookup rest r

/-- JS `cache[route] = v`: replace the value of an existing key in place,
otherwise add the key at the end. -/
def cacheStore (c : List (String × Renderable)) (r : String) (v : Renderable) :
    List (String × Renderable) :=
  match c with
  | [] => [(r, v)]
  | (k, w) :: rest => if k = r then (k, v) :: rest else (k, w) :: cacheStore rest r v

/-- The state of a `Visual` (class `Visual` of `visual.js`, the variant with
the `loading` flag) together with its parent node and the bookkeeping of
asynchronous fetches.  `P` is the parameter record of the concrete subclass. -/
structure VisualState (P : Type) where
  name : String
  visible : Bool
  params : P
  cache : List (String × Renderable)
  children : List Renderable
  visual : Option Renderable
  loading : Bool
  pending : List String
  fetchCount : Nat
deriving DecidableEq, Repr

/-- Settings accepted by the `Visual` constructor (the fields the base class
reads; the subclass parameters are passed separately as `P`). -/
structure VisualSettings where
  name : Option String
  visible : Option Bool
deriving DecidableEq, Repr

/-- The `Visual` constructor: `this._name = settings.name || 'visual'`,
`this._visible = settings.visible || true`, empty cache, no renderable,
`loading` false.  The parent is assumed to start with no children. -/
def Visual.mkVisual {P : Type} (settings : VisualSettings) (p : P) : VisualState P :=
  { name := jsOrString settings.name "visual"
    visible := jsOrBool settings.visible true
    params := p
    cache := []
    children := []
    visual := none
    loading := false
    pending := []
    fetchCount := 0 }

/-- A fresh Visual with an explicit name (the subclass constructors pass a
default name through the settings). -/
def Visual.initial {P : Type} (name : String) (p : P) : VisualState P :=
  Visual.mkVisual { name := some name, visible := none } p

/-- Method `Visual.add()`: remove any same-named child from the parent, compute the
route, set `loading`; on a cache hit attach the cached renderable
synchronously and clear `loading`, otherwise issue a fetch for the route. -/
def Visual.addOp {P : Type} (route : P → String) (s : VisualState P) : VisualState P :=
  match cacheLookup s.cache (route s.params) with
  | some v =>
      { s with children := removeObjectByName s.children s.name ++ [v],
               visual := some v, loading := false }
  | none =>
      { s with children := removeObjectByName s.children s.name, loading := true,
               pending := s.pending ++ [route s.params], fetchCount := s.fetchCount + 1 }

/-- Arrival of the response of a fetch for `r`: the `loader.load` callback of
`Visual.fetch` runs `create`, stores the result in the cache, attaches it to
the parent (without removing anything) and clears `loading`. -/
def Visual.completeOp {P : Type} (create : VisualState P → Nat → Renderable)
    (r : String) (g : Nat) (s : VisualState P) : VisualState P :=
  { s with visual := some (create s g)
           cache := cacheStore s.cache r (create s g)
           children := s.children ++ [create s g]
           loading := false
           pending := s.pending.erase r }

/-- A route-affecting parameter setter: assign the field, then `this.add()`. -/
def Visual.setParamOp {P : Type} (route : P → String) (f : P → P)
    (s : VisualState P) : VisualState P :=
  Visual.addOp route { s with params := f s.params }

/-- Setter `set name(value)` of `Visual`: always throws. -/
def Visual.setName {P : Type} (_s : VisualState P) (_value : String) :
    Except String (VisualState P) :=
  Except.error "\"name\" property is read only!"

/-- Setter `set cache(value)` of `Visual`: always throws. -/
def Visual.setCache {P : Type} (_s : VisualState P)
    (_value : List (String × Renderable)) : Except String (VisualState P) :=
  Except.error "\"cache\" property is read only!"

/-- Setter `set loading(value)` of `Visual`: always throws (the source reuses the
`"cache"` message verbatim). -/
def Visual.setLoading {P : Type} (_s : VisualState P) (_value : Bool) :
    Except String (VisualState P) :=
  Except.error "\"cache\" property is read only!"

/-- Setter `set visible(value)` of `Visual`: store the flag and update the `visible`
flag of every cached renderable. -/
def Visual.setVisible {P : Type} (value : Bool) (s : VisualState P) : VisualState P :=
  { s with visible := value
           cache := s.cache.map (fun e => (e.1, { e.2 with visible := value })) }

/-- One event of the event loop acting on a Visual: an explicit `add()` call,
a route-affecting setter (field update followed by `add()`), or the arrival
of the response of a pending fetch. -/
inductive Visual.Step {P : Type} (route : P → String)
    (create : VisualState P → Nat → Renderable) :
    VisualState P → VisualState P → Prop
  | add (s : VisualState P) : Visual.Step route create s (Visual.addOp route s)
  | setParam (f : P → P) (s : VisualState P) :
      Visual.Step route create s (Visual.setParamOp route f s)
  | complete (r : String) (g : Nat) (s : VisualState P) (h : r ∈ s.pending) :
      Visual.Step route create s (Visual.completeOp create r g s)

/-- Reachability by any interleaving of events (fetch responses may arrive
in any order relative to later `add()` calls). -/
inductive Visual.Reach {P : Type} (route : P → String)
    (create : VisualState P → Nat → Renderable) :
    VisualState P → VisualState P → Prop
  | refl (s : VisualState P) : Visual.Reach route create s s
  | tail {s t u : VisualState P} :
      Visual.Reach route create s t → Visual.Step route create t u →
      Visual.Reach route create s u

/-- Reachability by sequential traces: `add()` (and route-affecting setters)
are only invoked while no fetch is in flight; responses may arrive at any
point. -/
inductive Visual.SeqReach {P : Type} (route : P → String)
    (create : VisualState P → Nat → Renderable) :
    VisualState P → VisualState P → Prop
  | refl (s : VisualState P) : Visual.SeqReach route create s s
  | add {s t : VisualState P} :
      Visual.SeqReach route create s t → t.pending = [] →
      Visual.SeqReach route create s (Visual.addOp route t)
  | setParam {s t : VisualState P} (f : P → P) :
      Visual.SeqReach route create s t → t.pending = [] →
      Visual.SeqReach route create s (Visual.setParamOp route f t)
  | complete {s t : VisualState P} (r : String) (g : Nat) :
      Visual.SeqReach route create s t → r ∈ t.pending →
      Visual.SeqReach route create s (Visual.completeOp create r g t)

/-- Number of children of the parent that carry the given scene-graph name. -/
def countByName (children : List Renderable) (name : String) : Nat :=
  (children.filter (fun o => o.name == name)).length

/-! ## ImageVisual (`static/js/visuals/imageVisual.js`, `src/unnamed/part_000`) -/

/-- The subclass fields of `ImageVisual` (`part_000`). -/
structure ImageVisualParams where
  image : String
  primaryColourspace : String
  secondaryColourspace : String
  imageColourspace : String
  uniformOpacity : Rat
  outOfPrimaryColourspaceGamut : Bool
  outOfSecondaryColourspaceGamut : Bool
  saturate : Bool
  depth : Rat
deriving DecidableEq, Repr

/-- The constructor defaults of `ImageVisual` (`part_000`). -/
def ImageVisual.defaultParams : ImageVisualParams :=
  { image := "SonyF35-StillLife.sRGB.exr"
    primaryColourspace := "sRGB"
    secondaryColourspace := "DCI-P3"
    imageColourspace := "Primary"
    uniformOpacity := 1
    outOfPrimaryColourspaceGamut := false
    outOfSecondaryColourspaceGamut := false
    saturate := false
    depth := 0 }

/-- Method `ImageVisual.route()` (`part_000`, lines 112-130). -/
def ImageVisual.route (p : ImageVisualParams) : String :=
  "/image-data/" ++ encodeURIComponent p.image ++ "?" ++
  "primaryColourspace=" ++ encodeURIComponent p.primaryColourspace ++ "&" ++
  "secondaryColourspace=" ++ encodeURIComponent p.secondaryColourspace ++ "&" ++
  "imageColourspace=" ++ encodeURIComponent p.imageColourspace ++ "&" ++
  "outOfPrimaryColourspaceGamut=" ++ boolStr p.outOfPrimaryColourspaceGamut ++ "&" ++
  "outOfSecondaryColourspaceGamut=" ++ boolStr p.outOfSecondaryColourspaceGamut ++ "&" ++
  "saturate=" ++ boolStr p.saturate

/-- Method `ImageVisual.create(geometry)` as far as the modelled attributes go:
a mesh named after the Visual, with the Visual's visibility and the current
uniform opacity. -/
def ImageVisual.create (s : VisualState ImageVisualParams) (g : Nat) : Renderable :=
  { name := s.name
    visible := s.visible
    opacity := s.params.uniformOpacity
    wireframe := false
    size := 0
    geometry := g }

/-- Setter `set imageColourspace(value)` of `ImageVisual`: validate membership in
`["Primary", "Secondary"]`, then assign and `add()`. -/
def ImageVisual.setImageColourspace (value : String)
    (s : VisualState ImageVisualParams) : Except String (VisualState ImageVisualParams) :=
  if ¬(value = "Primary" ∨ value = "Secondary") then
    Except.error "\"imageColourspace\" value must be one of [\"Primary\", \"Secondary\"]!"
  else
    Except.ok (Visual.addOp ImageVisual.route
      { s with params := { s.params with imageColourspace := value } })

/-- Setter `set depth(value)` of `ImageVisual`: always throws. -/
def ImageVisual.setDepth (_s : VisualState ImageVisualParams) (_value : Rat) :
    Except String (VisualState ImageVisualParams) :=
  Except.error "\"depth\" property is read only!"

/-- Setter `set uniformOpacity(value)` of `ImageVisual`: store the field and mutate
the material opacity of every cached renderable. -/
def ImageVisual.setUniformOpacity (value : Rat)
    (s : VisualState ImageVisualParams) : VisualState ImageVisualParams :=
  { s with params := { s.params with uniformOpacity := value }
           cache := s.cache.map (fun e => (e.1, { e.2 with opacity := value })) }

/-! ## SpectralLocusVisual (`src/src/visuals/spectral-locus-visual.js`) -/

/-- The subclass fields of `SpectralLocusVisual`. -/
structure SpectralLocusParams where
  colourspace : String
  colourspaceModel : String
  uniformColour : Option Nat
  uniformOpacity : Rat
deriving DecidableEq, Repr

/-- The constructor defaults of `SpectralLocusVisual`. -/
def SpectralLocusVisual.defaultParams : SpectralLocusParams :=
  { colourspace := "sRGB"
    colourspaceModel := "CIE xyY"
    uniformColour := none
    uniformOpacity := (0.75 : Rat) }

/-- Method `SpectralLocusVisual.route()` (lines 53-59). -/
def SpectralLocusVisual.route (p : SpectralLocusParams) : String :=
  "/spectral-locus-visual?" ++
  "colourspace=" ++ encodeURIComponent p.colourspace ++ "&" ++
  "colourspaceModel=" ++ encodeURIComponent p.colourspaceModel ++ "&"

/-- Method `SpectralLocusVisual.create(geometry)`: a line named after the Visual
with the current uniform opacity. -/
def SpectralLocusVisual.create (s : VisualState SpectralLocusParams) (g : Nat) : Renderable :=
  { name := s.name
    visible := s.visible
    opacity := s.params.uniformOpacity
    wireframe := false
    size := 0
    geometry := g }

/-- Setter `set colourspace(value)`: assign and `add()`. -/
def SpectralLocusVisual.setColourspace (value : String)
    (s : VisualState SpectralLocusParams) : VisualState SpectralLocusParams :=
  Visual.addOp SpectralLocusVisual.route
    { s with params := { s.params with colourspace := value } }

/-- Setter `set colourspaceModel(value)`: assign and `add()`. -/
def SpectralLocusVisual.setColourspaceModel (value : String)
    (s : VisualState SpectralLocusParams) : VisualState SpectralLocusParams :=
  Visual.addOp SpectralLocusVisual.route
    { s with params := { s.params with colourspaceModel := value } }

/-! ## ColourspaceVisual (`src/unnamed/part_001`, lines 215-335, the
`src/src/visuals/colourspace-visual.js` variant using `serverRoute`) -/

/-- The subclass fields of `ColourspaceVisual`. -/
structure ColourspaceParams where
  colourspace : String
  colourspaceModel : String
  segments : Nat
  uniformColour : Option Nat
  uniformOpacity : Rat
  wireframe : Bool
  wireframeColour : Option Nat
  wireframeOpacity : Rat
deriving DecidableEq, Repr

/-- The constructor defaults of `ColourspaceVisual`. -/
def ColourspaceVisual.defaultParams : ColourspaceParams :=
  { colourspace := "sRGB"
    colourspaceModel := "CIE xyY"
    segments := 16
    uniformColour := none
    uniformOpacity := (0.75 : Rat)
    wireframe := false
    wireframeColour := none
    wireframeOpacity := 1 }

/-- Method `ColourspaceVisual.route()` (`part_001`, lines 307-315): note that the
`wireframe` flag is part of the route string. -/
def ColourspaceVisual.route (server : Option String) (p : ColourspaceParams) : String :=
  serverRoute server
    ("/RGB-colourspace-volume-visual?" ++
     "colourspace=" ++ encodeURIComponent p.colourspace ++ "&" ++
     "colourspaceModel=" ++ encodeURIComponent p.colourspaceModel ++ "&" ++
     "segments=" ++ toString p.segments ++ "&" ++
     "wireframe=" ++ boolStr p.wireframe ++ "&")

/-- Method `ColourspaceVisual.create(geometry)`: a mesh named after the Visual with
the current uniform opacity and wireframe flag. -/
def ColourspaceVisual.create (s : VisualState ColourspaceParams) (g : Nat) : Renderable :=
  { name := s.name
    visible := s.visible
    opacity := s.params.uniformOpacity
    wireframe := s.params.wireframe
    size := 0
    geometry := g }

/-- Setter `set uniformOpacity(value)` (`part_001`, lines 269-276): store the field
and mutate the material opacity of every cached renderable; no `add()`. -/
def ColourspaceVisual.setUniformOpacity (value : Rat)
    (s : VisualState ColourspaceParams) : VisualState ColourspaceParams :=
  { s with params := { s.params with uniformOpacity := value }
           cache := s.cache.map (fun e => (e.1, { e.2 with opacity := value })) }

/-- Setter `set wireframe(value)` (`part_001`, lines 282-289): store the field and
mutate the material wireframe flag of every cached renderable; no `add()`. -/
def ColourspaceVisual.setWireframe (value : Bool)
    (s : VisualState ColourspaceParams) : VisualState ColourspaceParams :=
  { s with params := { s.params with wireframe := value }
           cache := s.cache.map (fun e => (e.1, { e.2 with wireframe := value })) }

/-- Setter `set colourspace(value)`: assign and `add()`. -/
def ColourspaceVisual.setColourspace (server : Option String) (value : String)
    (s : VisualState ColourspaceParams) : VisualState ColourspaceParams :=
  Visual.addOp (ColourspaceVisual.route server)
    { s with params := { s.params with colourspace := value } }

/-- Setter `set colourspaceModel(value)`: assign and `add()`. -/
def ColourspaceVisual.setColourspaceModel (server : Option String) (value : String)
    (s : VisualState ColourspaceParams) : VisualState ColourspaceParams :=
  Visual.addOp (ColourspaceVisual.route server)
    { s with params := { s.params with colourspaceModel := value } }

/-! ## ImageScatterVisual (`static/js/visuals/imageScatterVisual.js`) -/

/-- The subclass fields of the `static/js` `ImageScatterVisual`. -/
structure ImageScatterStaticParams where
  image : String
  colourspace : String
  colourspaceModel : String
  uniformColour : Option Nat
  uniformOpacity : Rat
  subSampling : Nat
  pointSize : Rat
  saturate : Bool
deriving DecidableEq, Repr

/-- The constructor defaults of the `static/js` `ImageScatterVisual`. -/
def ImageScatterVisualStatic.defaultParams : ImageScatterStaticParams :=
  { image := "SonyF35-StillLife.sRGB.exr"
    colourspace := "sRGB"
    colourspaceModel := "CIE xyY"
    uniformColour := none
    uniformOpacity := (0.75 : Rat)
    subSampling := 25
    pointSize := (0.01 : Rat)
    saturate := false }

/-- Method `route()` of the `static/js` `ImageScatterVisual` (lines 97-106): raw
template interpolation, no URI encoding; `pointSize` is not part of it. -/
def ImageScatterVisualStatic.route (p : ImageScatterStaticParams) : String :=
  "/RGB-image-scatter-visual/" ++ p.image ++ "?" ++
  "colourspace=" ++ p.colourspace ++ "&" ++
  "colourspaceModel=" ++ p.colourspaceModel ++ "&" ++
  "uniformColour=" ++ showOptNat p.uniformColour ++ "&" ++
  "subSampling=" ++ toString p.subSampling ++ "&" ++
  "saturate=" ++ boolStr p.saturate ++ "&"

/-- Method `create(geometry)` of the `static/js` `ImageScatterVisual`: a points
cloud named after the Visual with the current opacity and point size. -/
def ImageScatterVisualStatic.create (s : VisualState ImageScatterStaticParams)
    (g : Nat) : Renderable :=
  { name := s.name
    visible := s.visible
    opacity := s.params.uniformOpacity
    wireframe := false
    size := s.params.pointSize
    geometry := g }

/-- Setter `set pointSize(value)` (lines 79-86): store the field and mutate the
material size of every cached renderable; no `add()`. -/
def ImageScatterVisualStatic.setPointSize (value : Rat)
    (s : VisualState ImageScatterStaticParams) : VisualState ImageScatterStaticParams :=
  { s with params := { s.params with pointSize := value }
           cache := s.cache.map (fun e => (e.1, { e.2 with size := value })) }

/-- Setter `set colourspace(value)`: assign and `add()`. -/
def ImageScatterVisualStatic.setColourspace (value : String)
    (s : VisualState ImageScatterStaticParams) : VisualState ImageScatterStaticParams :=
  Visual.addOp ImageScatterVisualStatic.route
    { s with params := { s.params with colourspace := value } }

/-- Setter `set colourspaceModel(value)`: assign and `add()`. -/
def ImageScatterVisualStatic.setColourspaceModel (value : String)
    (s : VisualState ImageScatterStaticParams) : VisualState ImageScatterStaticParams :=
  Visual.addOp ImageScatterVisualStatic.route
    { s with params := { s.params with colourspaceModel := value } }

/-! ## ImageScatterVisual, `src/src` variant (second class of
`static/js/visuals/viewAxesVisual.js`, imported by `src/src/views/gamut-view.js`) -/

/-- The subclass fields of the `src/src` `ImageScatterVisual`. -/
structure ImageScatterParams where
  image : String
  primaryColourspace : String
  secondaryColourspace : String
  imageColourspace : String
  imageDecodingCctf : String
  colourspaceModel : String
  uniformColour : Option Nat
  uniformOpacity : Rat
  outOfPrimaryColourspaceGamut : Bool
  outOfSecondaryColourspaceGamut : Bool
  subSampling : Nat
  pointSize : Rat
  saturate : Bool
deriving DecidableEq, Repr

/-- The constructor defaults of the `src/src` `ImageScatterVisual`. -/
def ImageScatterVisual.defaultParams : ImageScatterParams :=
  { image := "Rose.ProPhoto.jpg"
    primaryColourspace := "sRGB"
    secondaryColourspace := "DCI-P3"
    imageColourspace := "Primary"
    imageDecodingCctf := "sRGB"
    colourspaceModel := "CIE xyY"
    uniformColour := none
    uniformOpacity := (0.75 : Rat)
    outOfPrimaryColourspaceGamut := false
    outOfSecondaryColourspaceGamut := false
    subSampling := 25
    pointSize := (0.01 : Rat)
    saturate := false }

/-- Method `route()` of the `src/src` `ImageScatterVisual`: `serverRoute` around the
URI-encoded parameter query (the image segment is interpolated raw). -/
def ImageScatterVisual.route (server : Option String) (p : ImageScatterParams) : String :=
  serverRoute server
    ("/RGB-image-scatter-visual/" ++ p.image ++ "?" ++
     "primaryColourspace=" ++ encodeURIComponent p.primaryColourspace ++ "&" ++
     "secondaryColourspace=" ++ encodeURIComponent p.secondaryColourspace ++ "&" ++
     "imageColourspace=" ++ encodeURIComponent p.imageColourspace ++ "&" ++
     "imageDecodingCctf=" ++ encodeURIComponent p.imageDecodingCctf ++ "&" ++
     "colourspaceModel=" ++ encodeURIComponent p.colourspaceModel ++ "&" ++
     "outOfPrimaryColourspaceGamut=" ++ boolStr p.outOfPrimaryColourspaceGamut ++ "&" ++
     "outOfSecondaryColourspaceGamut=" ++ boolStr p.outOfSecondaryColourspaceGamut ++ "&" ++
     "subSampling=" ++ toString p.subSampling ++ "&" ++
     "saturate=" ++ boolStr p.saturate ++ "&")

/-- Method `create(geometry)` of the `src/src` `ImageScatterVisual`. -/
def ImageScatterVisual.create (s : VisualState ImageScatterParams) (g : Nat) : Renderable :=
  { name := s.name
    visible := s.visible
    opacity := s.params.uniformOpacity
    wireframe := false
    size := s.params.pointSize
    geometry := g }

/-- Setter `set imageColourspace(value)` of the `src/src` `ImageScatterVisual`:
validate membership in `["Primary", "Secondary"]`, then assign and `add()`. -/
def ImageScatterVisual.setImageColourspace (server : Option String) (value : String)
    (s : VisualState ImageScatterParams) : Except String (VisualState ImageScatterParams) :=
  if ¬(value = "Primary" ∨ value = "Secondary") then
    Except.error "\"imageColourspace\" value must be one of [\"Primary\", \"Secondary\"]!"
  else
    Except.ok (Visual.addOp (ImageScatterVisual.route server)
      { s with params := { s.params with imageColourspace := value } })

/-- Setter `set colourspaceModel(value)`: assign and `add()`. -/
def ImageScatterVisual.setColourspaceModel (server : Option String) (value : String)
    (s : VisualState ImageScatterParams) : VisualState ImageScatterParams :=
  Visual.addOp (ImageScatterVisual.route server)
    { s with params := { s.params with colourspaceModel := value } }

/-! ## PointerGamutVisual (`src/src/visuals/pointer-gamut-visual.js`) -/

/-- The subclass fields of `PointerGamutVisual`. -/
structure PointerGamutParams where
  colourspaceModel : String
  uniformColour : Option Nat
  uniformOpacity : Rat
deriving DecidableEq, Repr

/-- The constructor defaults of `PointerGamutVisual`. -/
def PointerGamutVisual.defaultParams : PointerGamutParams :=
  { colourspaceModel := "CIE xyY"
    uniformColour := none
    uniformOpacity := (0.75 : Rat) }

/-- Method `PointerGamutVisual.route()`. -/
def PointerGamutVisual.route (server : Option String) (p : PointerGamutParams) : String :=
  serverRoute server
    ("/pointer-gamut-visual?" ++
     "colourspaceModel=" ++ encodeURIComponent p.colourspaceModel ++ "&")

/-- Method `PointerGamutVisual.create(geometry)`. -/
def PointerGamutVisual.create (s : VisualState PointerGamutParams) (g : Nat) : Renderable :=
  { name := s.name
    visible := s.visible
    opacity := s.params.uniformOpacity
    wireframe := false
    size := 0
    geometry := g }

/-- Setter `set colourspaceModel(value)`: assign and `add()`. -/
def PointerGamutVisual.setColourspaceModel (server : Option String) (value : String)
    (s : VisualState PointerGamutParams) : VisualState PointerGamutParams :=
  Visual.addOp (PointerGamutVisual.route server)
    { s with params := { s.params with colourspaceModel := value } }

/-! ## ViewAxesVisual (`static/js/visuals/viewAxesVisual.js`; the `src/src`
variant imported by `gamut-view.js` is not among the sources) -/

/-- The subclass fields of `ViewAxesVisual`. -/
structure ViewAxesParams where
  colourspaceModel : String
deriving DecidableEq, Repr

/-- Method `ViewAxesVisual.route()` (`static/js` variant). -/
def ViewAxesVisual.route (p : ViewAxesParams) : String :=
  "/colourspace-models?colourspaceModel=" ++ p.colourspaceModel

/-- Method `ViewAxesVisual.create(json)`: an axes helper named after the Visual. -/
def ViewAxesVisual.create (s : VisualState ViewAxesParams) (g : Nat) : Renderable :=
  { name := s.name
    visible := s.visible
    opacity := 1
    wireframe := false
    size := 0
    geometry := g }

/-- Setter `set colourspaceModel(value)` of `ViewAxesVisual`: assign and `add()`
(the `src/src` variant follows the same setter pattern as its siblings). -/
def ViewAxesVisual.setColourspaceModel (value : String)
    (s : VisualState ViewAxesParams) : VisualState ViewAxesParams :=
  Visual.addOp ViewAxesVisual.route
    { s with params := { s.params with colourspaceModel := value } }

/-! ## VisibleSpectrumVisual -/

/-- Modelled from the spec: the `VisibleSpectrumVisual` class file is not
among the sources (`src/src/views/gamut-view.js` imports it).  Per the spec
it is a concrete Visual whose route is a deterministic URL-encoded query
built from its parameters, here its `colourspaceModel`. -/
structure VisibleSpectrumParams where
  colourspaceModel : String
deriving DecidableEq, Repr

/-- Modelled from the spec: the route of `VisibleSpectrumVisual`, a
deterministic query string over its parameter set. -/
def VisibleSpectrumVisual.route (server : Option String) (p : VisibleSpectrumParams) : String :=
  serverRoute server
    ("/visible-spectrum-visual?" ++
     "colourspaceModel=" ++ encodeURIComponent p.colourspaceModel ++ "&")

/-- Modelled from the spec: `create` yields a renderable named after the
Visual. -/
def VisibleSpectrumVisual.create (s : VisualState VisibleSpectrumParams)
    (g : Nat) : Renderable :=
  { name := s.name
    visible := s.visible
    opacity := 1
    wireframe := false
    size := 0
    geometry := g }

/-- Modelled from the spec: a parameter setter that affects `route()` assigns
the field and calls `add()`. -/
def VisibleSpectrumVisual.setColourspaceModel (server : Option String) (value : String)
    (s : VisualState VisibleSpectrumParams) : VisualState VisibleSpectrumParams :=
  Visual.addOp (VisibleSpectrumVisual.route server)
    { s with params := { s.params with colourspaceModel := value } }

/-! ## GamutView (`src/src/views/gamut-view.js`) -/

/-- The state of `GamutView` as far as the modelled behaviour observes it:
the shared parameters and the (possibly not yet constructed) constituent
Visuals. -/
structure GamutView where
  image : String
  primaryColourspace : String
  secondaryColourspace : String
  imageColourspace : String
  imageDecodingCctf : String
  colourspaceModel : String
  viewAxesVisual : Option (VisualState ViewAxesParams)
  visibleSpectrumVisual : Option (VisualState VisibleSpectrumParams)
  spectralLocusVisual : Option (VisualState SpectralLocusParams)
  pointerGamutVisual : Option (VisualState PointerGamutParams)
  secondaryColourspaceVisual : Option (VisualState ColourspaceParams)
  primaryColourspaceVisual : Option (VisualState ColourspaceParams)
  imageScatterVisual : Option (VisualState ImageScatterParams)
  imageScatterOverlayVisual : Option (VisualState ImageScatterParams)
deriving DecidableEq, Repr

/-- The constructor defaults of `GamutView`: all constituent Visuals start
undefined. -/
def GamutView.initial : GamutView :=
  { image := "Rose.ProPhoto.jpg"
    primaryColourspace := "sRGB"
    secondaryColourspace := "DCI-P3"
    imageColourspace := "Primary"
    imageDecodingCctf := "sRGB"
    colourspaceModel := "CIE xyY"
    viewAxesVisual := none
    visibleSpectrumVisual := none
    spectralLocusVisual := none
    pointerGamutVisual := none
    secondaryColourspaceVisual := none
    primaryColourspaceVisual := none
    imageScatterVisual := none
    imageScatterOverlayVisual := none }

/-- Setter `set colourspaceModel(value)` of `GamutView` (lines 242-276): store the
value, then propagate it to the `colourspaceModel` setter of every
constituent Visual that is defined. -/
def GamutView.setColourspaceModel (server : Option String) (value : String)
    (v : GamutView) : GamutView :=
  { v with
    colourspaceModel := value
    viewAxesVisual := v.viewAxesVisual.map (ViewAxesVisual.setColourspaceModel value)
    visibleSpectrumVisual :=
      v.visibleSpectrumVisual.map (VisibleSpectrumVisual.setColourspaceModel server value)
    spectralLocusVisual :=
      v.spectralLocusVisual.map (SpectralLocusVisual.setColourspaceModel value)
    pointerGamutVisual :=
      v.pointerGamutVisual.map (PointerGamutVisual.setColourspaceModel server value)
    secondaryColourspaceVisual :=
      v.secondaryColourspaceVisual.map (ColourspaceVisual.setColourspaceModel server value)
    primaryColourspaceVisual :=
      v.primaryColourspaceVisual.map (ColourspaceVisual.setColourspaceModel server value)
    imageScatterVisual :=
      v.imageScatterVisual.map (ImageScatterVisual.setColourspaceModel server value)
    imageScatterOverlayVisual :=
      v.imageScatterOverlayVisual.map (ImageScatterVisual.setColourspaceModel server value) }

/-- Helper threading the validated `imageColourspace` value into an optional
scatter Visual (the value has already been checked by the caller, so the
inner validating setter cannot throw; `Except.ok` is peeled accordingly). -/
def GamutView.propagateImageColourspace (server : Option String) (value : String)
    (o : Option (VisualState ImageScatterParams)) : Option (VisualState ImageScatterParams) :=
  o.map (fun s =>
    match ImageScatterVisual.setImageColourspace server value s with
    | Except.ok s' => s'
    | Except.error _ => s)

/-- Setter `set imageColourspace(value)` of `GamutView` (lines 203-220): validate
membership in `["Primary", "Secondary"]` (throwing otherwise, before any
mutation), then store the value and propagate it to the scatter Visuals. -/
def GamutView.setImageColourspace (server : Option String) (value : String)
    (v : GamutView) : Except String GamutView :=
  if ¬(value = "Primary" ∨ value = "Secondary") then
    Except.error "\"imageColourspace\" value must be one of [\"Primary\", \"Secondary\"]!"
  else
    Except.ok
      { v with
        imageColourspace := value
        imageScatterVisual := GamutView.propagateImageColourspace server value v.imageScatterVisual
        imageScatterOverlayVisual :=
          GamutView.propagateImageColourspace server value v.imageScatterOverlayVisual }

/-- Method `GamutView.isLoading()` (lines 465-476): the boolean OR of the `loading`
flags of all eight constituent Visuals.  Reading `.loading` from an
unconstructed (undefined) Visual would throw in JS; that is `none` here. -/
def GamutView.isLoading (v : GamutView) : Option Bool :=
  match v.viewAxesVisual, v.visibleSpectrumVisual, v.spectralLocusVisual,
        v.pointerGamutVisual, v.secondaryColourspaceVisual, v.primaryColourspaceVisual,
        v.imageScatterVisual, v.imageScatterOverlayVisual with
  | some a, some b, some c, some d, some e, some f, some g, some h =>
      some (a.loading || b.loading || c.loading || d.loading ||
            e.loading || f.loading || g.loading || h.loading)
  | _, _, _, _, _, _, _, _ => none

/-! ## GamutView, legacy variant (`src/unnamed/part_009`,
`static/js/views/gamutView.js`) -/

/-- The state of the legacy `GamutView` (`part_009`): different shared
parameters and five constituent Visuals. -/
structure GamutViewLegacy where
  colourspaceModel : String
  workingColourspace : String
  compareColourspace : String
  imageColourspace : String
  viewAxesVisual : Option (VisualState ViewAxesParams)
  spectralLocusVisual : Option (VisualState SpectralLocusParams)
  compareColourspaceVisual : Option (VisualState ColourspaceParams)
  workingColourspaceVisual : Option (VisualState ColourspaceParams)
  imageScatterVisual : Option (VisualState ImageScatterStaticParams)
deriving DecidableEq, Repr

/-- The constructor defaults of the legacy `GamutView` (`part_009`, lines
71-75); note the initial `imageColourspace` is `'sRGB'`. -/
def GamutViewLegacy.initial : GamutViewLegacy :=
  { colourspaceModel := "CIE xyY"
    workingColourspace := "sRGB"
    compareColourspace := "DCI-P3"
    imageColourspace := "sRGB"
    viewAxesVisual := none
    spectralLocusVisual := none
    compareColourspaceVisual := none
    workingColourspaceVisual := none
    imageScatterVisual := none }

/-- Setter `set imageColourspace(value)` of the legacy `GamutView` (`part_009`,
lines 159-165): no validation; store the value and assign it to the scatter
Visual's `colourspace` setter when that Visual is defined. -/
def GamutViewLegacy.setImageColourspace (value : String)
    (v : GamutViewLegacy) : GamutViewLegacy :=
  { v with
    imageColourspace := value
    imageScatterVisual := v.imageScatterVisual.map (ImageScatterVisualStatic.setColourspace value) }

/-! ## ImageView (`src/unnamed/part_001`) -/

/-- The state of `ImageView` as far as `isLoading()` observes it: the two
image Visuals (both instances of `ImageVisual`). -/
structure ImageView where
  image : String
  colourspaceModel : String
  primaryColourspace : String
  secondaryColourspace : String
  imageColourspace : String
  imageVisual : Option (VisualState ImageVisualParams)
  imageOverlayVisual : Option (VisualState ImageVisualParams)
deriving DecidableEq, Repr

/-- Method `ImageView.isLoading()` (`part_001`, lines 189-191): the boolean OR of
the two constituent `loading` flags (throws in JS when a constituent is
undefined, modelled as `none`). -/
def ImageView.isLoading (v : ImageView) : Option Bool :=
  match v.imageVisual, v.imageOverlayVisual with
  | some a, some b => some (a.loading || b.loading)
  | _, _ => none

/-- Setter `set imageColourspace(value)` of `ImageView` (`part_001`, lines 106-119):
validate membership in `["Primary", "Secondary"]`, then store and propagate
to the overlay Visual. -/
def ImageView.setImageColourspace (value : String)
    (v : ImageView) : Except String ImageView :=
  if ¬(value = "Primary" ∨ value = "Secondary") then
    Except.error "\"imageColourspace\" value must be one of [\"Primary\", \"Secondary\"]!"
  else
    Except.ok
      { v with
        imageColourspace := value
        imageOverlayVisual := v.imageOverlayVisual.map (fun s =>
          match ImageVisual.setImageColourspace value s with
          | Except.ok s' => s'
          | Except.error _ => s) }

/-! ## Helper lemmas about the cache and the parent's children -/

theorem cacheLookup_cacheStore_self (c : List (String × Renderable)) (r : String)
    (v : Renderable) : cacheLookup (cacheStore c r v) r = some v := by
  induction c with
  | nil => simp [cacheStore, cacheLookup]
  | cons e rest ih =>
    obtain ⟨k, w⟩ := e
    by_cases h : k = r
    · subst h; simp [cacheStore, cacheLookup]
    · simp [cacheStore, cacheLookup, h, ih]

theorem cacheLookup_cacheStore_of_ne (c : List (String × Renderable)) {r r' : String}
    (v : Renderable) (h : r' ≠ r) :
    cacheLookup (cacheStore c r v) r' = cacheLookup c r' := by
  induction c with
  | nil =>
    simp [cacheStore, cacheLookup]
    intro he
    exact absurd he.symm h
  | cons e rest ih =>
    obtain ⟨k, w⟩ := e
    by_cases hk : k = r
    · subst hk
      simp only [cacheStore, if_pos rfl, cacheLookup]
      rw [if_neg (fun he => h he.symm), if_neg (fun he => h he.symm)]
    · simp only [cacheStore, if_neg hk, cacheLookup]
      by_cases hk' : k = r'
      · rw [if_pos hk', if_pos hk']
      · rw [if_neg hk', if_neg hk', ih]

theorem cacheLookup_mem {c : List (String × Renderable)} {r : String} {v : Renderable}
    (h : cacheLookup c r = some v) : (r, v) ∈ c := by
  induction c with
  | nil => simp [cacheLookup] at h
  | cons e rest ih =>
    obtain ⟨k, w⟩ := e
    simp only [cacheLookup] at h
    split at h
    · next hk =>
        injection h with h
        subst hk h
        exact List.mem_cons_self _ _
    · next hk => exact List.mem_cons_of_mem _ (ih h)

theorem mem_cacheStore {c : List (String × Renderable)} {r : String} {v : Renderable}
    {e : String × Renderable} (h : e ∈ cacheStore c r v) : e ∈ c ∨ e = (r, v) := by
  induction c with
  | nil =>
    right
    simpa [cacheStore] using h
  | cons f rest ih =>
    obtain ⟨k, w⟩ := f
    simp only [cacheStore] at h
    split at h
    · next hk =>
        subst hk
        rcases List.mem_cons.mp h with h1 | h1
        · right; exact h1
        · left; exact List.mem_cons_of_mem _ h1
    · next hk =>
        rcases List.mem_cons.mp h with h1 | h1
        · left; rw [h1]; exact List.mem_cons_self _ _
        · rcases ih h1 with h2 | h2
          · left; exact List.mem_cons_of_mem _ h2
          · right; exact h2

theorem countByName_append (a b : List Renderable) (n : String) :
    countByName (a ++ b) n = countByName a n + countByName b n := by
  simp [countByName, List.filter_append]

theorem countByName_remove (cs : List Renderable) (n : String) :
    countByName (removeObjectByName cs n) n = 0 := by
  induction cs with
  | nil => rfl
  | cons o rest ih =>
    by_cases h : o.name = n
    · simp [countByName, removeObjectByName, h, ih]
    · simp [countByName, removeObjectByName, h, ih]

theorem countByName_singleton (v : Renderable) (n : String) :
    countByName [v] n = if v.name = n then 1 else 0 := by
  by_cases h : v.name = n
  · have hb : (v.name == n) = true := by simpa using h
    simp [countByName, List.filter, hb, h]
  · have hb : (v.name == n) = false := by simpa using h
    simp [countByName, List.filter, hb, h]

/-- Observable effect of one `add()` call: either a fetch for the current
route was issued (fetch counter incremented, route pending), or it was a
cache hit and the cached renderable is now the current one, with no fetch
issued. -/
def addTriggered {P : Type} (route : P → String) (old new : VisualState P) : Prop :=
  (new.fetchCount = old.fetchCount + 1 ∧ route new.params ∈ new.pending) ∨
  (new.fetchCount = old.fetchCount ∧ new.visual = cacheLookup new.cache (route new.params))

theorem Visual.addOp_triggered {P : Type} (route : P → String) (s : VisualState P) :
    addTriggered route s (Visual.addOp route s) := by
  unfold addTriggered Visual.addOp
  cases h : cacheLookup s.cache (route s.params) with
  | some v => right; simp [h]
  | none => left; simp [h]

theorem Visual.setParamOp_triggered {P : Type} (route : P → String) (f : P → P)
    (s : VisualState P) : addTriggered route s (Visual.setParamOp route f s) := by
  have h := Visual.addOp_triggered route { s with params := f s.params }
  unfold addTriggered at h ⊢
  simpa using h

theorem Visual.addOp_cache {P : Type} (route : P → String) (s : VisualState P) :
    (Visual.addOp route s).cache = s.cache := by
  unfold Visual.addOp
  cases cacheLookup s.cache (route s.params) <;> rfl

theorem Visual.addOp_name {P : Type} (route : P → String) (s : VisualState P) :
    (Visual.addOp route s).name = s.name := by
  unfold Visual.addOp
  cases cacheLookup s.cache (route s.params) <;> rfl

theorem Visual.step_cache_mono {P : Type} {route : P → String}
    {create : VisualState P → Nat → Renderable} {s t : VisualState P}
    (h : Visual.Step route create s t) (r : String)
    (hr : (cacheLookup s.cache r).isSome) : (cacheLookup t.cache r).isSome := by
  cases h with
  | add s => rw [Visual.addOp_cache]; exact hr
  | setParam f s =>
      unfold Visual.setParamOp
      rw [Visual.addOp_cache]
      exact hr
  | complete r' g s hmem =>
      show (cacheLookup (Visual.completeOp create r' g s).cache r).isSome
      unfold Visual.completeOp
      by_cases hrr : r = r'
      · subst hrr
        simp [cacheLookup_cacheStore_self]
      · simpa [cacheLookup_cacheStore_of_ne _ _ hrr] using hr

/-- Along any interleaving of events, a route that is present in the cache
stays present (the cache is never evicted). -/
theorem Visual.reach_cache_mono {P : Type} {route : P → String}
    {create : VisualState P → Nat → Renderable} {s t : VisualState P}
    (h : Visual.Reach route create s t) (r : String)
    (hr : (cacheLookup s.cache r).isSome) : (cacheLookup t.cache r).isSome := by
  induction h with
  | refl => exact hr
  | tail hreach hstep ih => exact Visual.step_cache_mono hstep r ih

/-- Invariant used for the at-most-one-attached-renderable property: at most
one same-named child, at most one pending fetch, no same-named child while a
fetch is pending, and every cached renderable carries the Visual's name. -/
def VInv {P : Type} (s : VisualState P) : Prop :=
  countByName s.children s.name ≤ 1 ∧
  s.pending.length ≤ 1 ∧
  (s.pending = [] ∨ countByName s.children s.name = 0) ∧
  (∀ e ∈ s.cache, (Prod.snd e).name = s.name)

theorem VInv_params {P : Type} {s : VisualState P} (h : VInv s) (p : P) :
    VInv { s with params := p } := by
  obtain ⟨h1, h2, h3, h4⟩ := h
  exact ⟨h1, h2, h3, h4⟩

theorem VInv_addOp {P : Type} (route : P → String) (t : VisualState P)
    (hinv : VInv t) (hpend : t.pending = []) : VInv (Visual.addOp route t) := by
  obtain ⟨h1, h2, h3, h4⟩ := hinv
  unfold Visual.addOp
  cases hl : cacheLookup t.cache (route t.params) with
  | some v =>
      have hv : v.name = t.name := h4 _ (cacheLookup_mem hl)
      refine ⟨?_, ?_, ?_, ?_⟩
      · show countByName (removeObjectByName t.children t.name ++ [v]) t.name ≤ 1
        rw [countByName_append, countByName_remove, countByName_singleton]
        simp [hv]
      · simpa using h2
      · left; exact hpend
      · exact h4
  | none =>
      refine ⟨?_, ?_, ?_, ?_⟩
      · show countByName (removeObjectByName t.children t.name) t.name ≤ 1
        rw [countByName_remove]
        exact Nat.zero_le 1
      · show (t.pending ++ [route t.params]).length ≤ 1
        rw [hpend]
        rfl
      · right; exact countByName_remove _ _
      · exact h4

theorem pending_singleton {l : List String} {r : String}
    (hlen : l.length ≤ 1) (hmem : r ∈ l) : l = [r] := by
  cases l with
  | nil => cases hmem
  | cons a rest =>
    cases rest with
    | nil =>
      rcases List.mem_singleton.mp hmem with rfl
      rfl
    | cons b rest' => simp at hlen

theorem VInv_completeOp {P : Type} (create : VisualState P → Nat → Renderable)
    (hcreate : ∀ (u : VisualState P) (g : Nat), (create u g).name = u.name)
    (r : String) (g : Nat) (t : VisualState P)
    (hinv : VInv t) (hmem : r ∈ t.pending) : VInv (Visual.completeOp create r g t) := by
  obtain ⟨h1, h2, h3, h4⟩ := hinv
  have hpend : t.pending = [r] := pending_singleton h2 hmem
  have hzero : countByName t.children t.name = 0 := by
    rcases h3 with h3 | h3
    · rw [h3] at hpend; cases hpend
    · exact h3
  unfold Visual.completeOp
  refine ⟨?_, ?_, ?_, ?_⟩
  · show countByName (t.children ++ [create t g]) t.name ≤ 1
    rw [countByName_append, countByName_singleton, hzero, hcreate]
    simp
  · show (t.pending.erase r).length ≤ 1
    rw [hpend]
    simp [List.erase_cons]
  · left
    show t.pending.erase r = []
    rw [hpend]
    simp [List.erase_cons]
  · intro e he
    rcases mem_cacheStore he with h | h
    · exact h4 e h
    · rw [h, hcreate]

/-- Along any sequential trace (no `add()` while a fetch is in flight), the
invariant is preserved. -/
theorem Visual.seqReach_inv {P : Type} {route : P → String}
    {create : VisualState P → Nat → Renderable}
    (hcreate : ∀ (u : VisualState P) (g : Nat), (create u g).name = u.name)
    {s t : VisualState P} (h : Visual.SeqReach route create s t) (hs : VInv s) : VInv t := by
  induction h with
  | refl => exact hs
  | add hreach hpend ih => exact VInv_addOp route _ ih hpend
  | setParam f hreach hpend ih =>
      exact VInv_addOp route _ (VInv_params ih _) hpend
  | complete r g hreach hmem ih =>
      exact VInv_completeOp create hcreate r g _ ih hmem

theorem VInv_initial {P : Type} (name : String) (p : P) : VInv (Visual.initial name p) := by
  refine ⟨?_, ?_, ?_, ?_⟩ <;> simp [Visual.initial, Visual.mkVisual, countByName]

theorem Visual.addOp_params {P : Type} (route : P → String) (s : VisualState P) :
    (Visual.addOp route s).params = s.params := by
  unfold Visual.addOp
  cases cacheLookup s.cache (route s.params) <;> rfl

/-! ## Claim theorems -/

/-- C1: for a Visual whose parameters are unchanged between two `add()`
calls, the first call on a fresh Visual issues exactly one fetch; once that
fetch has completed, the second call issues zero additional fetches: `add()`
computes `route()` and, the route being a key of the cache, synchronously
attaches the cached renderable to the parent without fetching.  The final
conjunct states the cache-hit clause for every state whose cache contains
the current route. -/
theorem add_second_call_cache_hit {P : Type} (route : P → String)
    (create : VisualState P → Nat → Renderable) (name : String) (p : P) (g : Nat) :
    (Visual.addOp route (Visual.initial name p)).fetchCount = 1 ∧
    (Visual.addOp route (Visual.initial name p)).pending = [route p] ∧
    ((Visual.addOp route (Visual.completeOp create (route p) g
        (Visual.addOp route (Visual.initial name p)))).fetchCount =
      (Visual.completeOp create (route p) g
        (Visual.addOp route (Visual.initial name p))).fetchCount ∧
     (Visual.completeOp create (route p) g
        (Visual.addOp route (Visual.initial name p))).fetchCount = 1 ∧
     (Visual.addOp route (Visual.completeOp create (route p) g
        (Visual.addOp route (Visual.initial name p)))).pending =
      (Visual.completeOp create (route p) g
        (Visual.addOp route (Visual.initial name p))).pending ∧
     (Visual.addOp route (Visual.completeOp create (route p) g
        (Visual.addOp route (Visual.initial name p)))).visual =
      cacheLookup (Visual.completeOp create (route p) g
        (Visual.addOp route (Visual.initial name p))).cache (route p)) ∧
    (∀ s : VisualState P, (cacheLookup s.cache (route s.params)).isSome →
      (Visual.addOp route s).fetchCount = s.fetchCount ∧
      (Visual.addOp route s).pending = s.pending ∧
      (Visual.addOp route s).visual = cacheLookup s.cache (route s.params)) := by
  refine ⟨?_, ?_, ?_, ?_⟩
  · simp [Visual.addOp, Visual.initial, Visual.mkVisual, cacheLookup]
  · simp [Visual.addOp, Visual.initial, Visual.mkVisual, cacheLookup]
  · simp [Visual.addOp, Visual.completeOp, Visual.initial, Visual.mkVisual,
      cacheLookup, cacheStore]
  · intro s hs
    obtain ⟨v, hv⟩ := Option.isSome_iff_exists.mp hs
    simp [Visual.addOp, hv]

/-- Witness for C1: a `ViewAxesVisual` whose first `add()` fetched and whose
fetch completed; the second `add()` is a cache hit with no further fetch. -/
theorem add_second_call_cache_hit_witness :
    (Visual.addOp ViewAxesVisual.route (Visual.completeOp ViewAxesVisual.create
      (ViewAxesVisual.route ⟨"CIE xyY"⟩) 0
      (Visual.addOp ViewAxesVisual.route
        (Visual.initial "view-axes-visual" ⟨"CIE xyY"⟩)))).fetchCount =
    (Visual.completeOp ViewAxesVisual.create (ViewAxesVisual.route ⟨"CIE xyY"⟩) 0
      (Visual.addOp ViewAxesVisual.route
        (Visual.initial "view-axes-visual" ⟨"CIE xyY"⟩))).fetchCount :=
  (add_second_call_cache_hit ViewAxesVisual.route ViewAxesVisual.create
    "view-axes-visual" ⟨"CIE xyY"⟩ 0).2.2.1.1

set_option maxRecDepth 8192 in
/-- C3: `route()` is a pure function of the Visual's parameter fields alone
(states agreeing on `params` yield the same route, whatever their cache,
children, visibility or name), and it returns the documented URL-encoded
query string, evaluated here on the constructor defaults of `ImageVisual`
and `SpectralLocusVisual` (note the encoded space in `CIE%20xyY`). -/
theorem route_pure_function_of_params :
    (∀ s t : VisualState ImageVisualParams, s.params = t.params →
      ImageVisual.route s.params = ImageVisual.route t.params) ∧
    (∀ s t : VisualState SpectralLocusParams, s.params = t.params →
      SpectralLocusVisual.route s.params = SpectralLocusVisual.route t.params) ∧
    ImageVisual.route ImageVisual.defaultParams =
      "/image-data/SonyF35-StillLife.sRGB.exr?primaryColourspace=sRGB&secondaryColourspace=DCI-P3&imageColourspace=Primary&outOfPrimaryColourspaceGamut=false&outOfSecondaryColourspaceGamut=false&saturate=false" ∧
    SpectralLocusVisual.route SpectralLocusVisual.defaultParams =
      "/spectral-locus-visual?colourspace=sRGB&colourspaceModel=CIE%20xyY&" := by
  refine ⟨?_, ?_, ?_, ?_⟩
  · intro s t h; rw [h]
  · intro s t h; rw [h]
  · decide
  · decide

/-- Witness for C3: two `ImageVisual` states with equal parameters but
different names and visibility produce the identical route string. -/
theorem route_pure_function_of_params_witness :
    ImageVisual.route (Visual.initial "image-visual" ImageVisual.defaultParams).params =
    ImageVisual.route (Visual.setVisible false
      (Visual.initial "image-overlay-visual" ImageVisual.defaultParams)).params :=
  route_pure_function_of_params.1
    (Visual.initial "image-visual" ImageVisual.defaultParams)
    (Visual.setVisible false (Visual.initial "image-overlay-visual" ImageVisual.defaultParams))
    rfl

/-- C6: along any interleaving of `add()` calls, setter-triggered `add()`
calls and fetch completions, a route present in the cache stays present (no
operation evicts or clears an entry); and when the routes of two parameter
sets are both cached, switching the parameters back and forth reattaches the
cached renderables without issuing any fetch. -/
theorem cache_only_grows {P : Type} (route : P → String)
    (create : VisualState P → Nat → Renderable) :
    (∀ s t : VisualState P, Visual.Reach route create s t →
      ∀ r, (cacheLookup s.cache r).isSome → (cacheLookup t.cache r).isSome) ∧
    (∀ (s : VisualState P) (pA pB : P),
      (cacheLookup s.cache (route pA)).isSome →
      (cacheLookup s.cache (route pB)).isSome →
      (Visual.setParamOp route (fun _ => pB)
        (Visual.setParamOp route (fun _ => pA) s)).fetchCount = s.fetchCount ∧
      (Visual.setParamOp route (fun _ => pB)
        (Visual.setParamOp route (fun _ => pA) s)).cache = s.cache) := by
  constructor
  · intro s t h r hr
    exact Visual.reach_cache_mono h r hr
  · intro s pA pB hA hB
    obtain ⟨vA, hvA⟩ := Option.isSome_iff_exists.mp hA
    obtain ⟨vB, hvB⟩ := Option.isSome_iff_exists.mp hB
    constructor <;>
      simp [Visual.setParamOp, Visual.addOp, hvA, hvB]

/-- A `ViewAxesVisual` state whose cache already holds the renderables of two
distinct colourspace models. -/
def viewAxesTwoCached : VisualState ViewAxesParams :=
  { Visual.initial "view-axes-visual" ⟨"CIE xyY"⟩ with
    cache := [(ViewAxesVisual.route ⟨"CIE xyY"⟩,
                ⟨"view-axes-visual", true, 1, false, 0, 0⟩),
              (ViewAxesVisual.route ⟨"CIE Lab"⟩,
                ⟨"view-axes-visual", true, 1, false, 0, 1⟩)] }

/-- Witness for C6: with both routes cached, switching the colourspace model
back and forth issues no fetch and leaves the cache untouched. -/
theorem cache_only_grows_witness :
    (Visual.setParamOp ViewAxesVisual.route (fun _ => (⟨"CIE xyY"⟩ : ViewAxesParams))
      (Visual.setParamOp ViewAxesVisual.route (fun _ => (⟨"CIE Lab"⟩ : ViewAxesParams))
        viewAxesTwoCached)).fetchCount = viewAxesTwoCached.fetchCount ∧
    (cacheLookup viewAxesTwoCached.cache (ViewAxesVisual.route ⟨"CIE Lab"⟩)).isSome :=
  ⟨((cache_only_grows ViewAxesVisual.route ViewAxesVisual.create).2 viewAxesTwoCached
      ⟨"CIE Lab"⟩ ⟨"CIE xyY"⟩ (by decide) (by decide)).1,
   (cache_only_grows ViewAxesVisual.route ViewAxesVisual.create).1
      viewAxesTwoCached viewAxesTwoCached (Visual.Reach.refl _)
      (ViewAxesVisual.route ⟨"CIE Lab"⟩) (by decide)⟩

/-- C8: writing to the read-only properties `name`, `cache` and `loading` of
any Visual, or `depth` of an `ImageVisual`, throws an immutable-property
error synchronously (with the source's exact messages, including the
copy-pasted `"cache"` text on the `loading` setter); the erroring setter
performs no mutation, so the stored value is unchanged. -/
theorem readonly_properties_throw :
    (∀ (P : Type) (s : VisualState P) (v : String),
      Visual.setName s v = Except.error "\"name\" property is read only!") ∧
    (∀ (P : Type) (s : VisualState P) (v : List (String × Renderable)),
      Visual.setCache s v = Except.error "\"cache\" property is read only!") ∧
    (∀ (P : Type) (s : VisualState P) (v : Bool),
      Visual.setLoading s v = Except.error "\"cache\" property is read only!") ∧
    (∀ (s : VisualState ImageVisualParams) (v : Rat),
      ImageVisual.setDepth s v = Except.error "\"depth\" property is read only!") :=
  ⟨fun _ _ _ => rfl, fun _ _ _ => rfl, fun _ _ _ => rfl, fun _ _ => rfl⟩

/-- C10: the constructor initialises the visibility flag with
`settings.visible || true`, so a freshly constructed Visual is always
visible, even when `settings.visible` is `false`; only the `visible` setter
can make it non-visible afterwards. -/
theorem constructed_visual_always_visible :
    (∀ (P : Type) (settings : VisualSettings) (p : P),
      (Visual.mkVisual settings p).visible = true) ∧
    (∀ (P : Type) (p : P),
      (Visual.mkVisual { name := none, visible := some false } p).visible = true) ∧
    (∀ (P : Type) (settings : VisualSettings) (p : P),
      (Visual.setVisible false (Visual.mkVisual settings p)).visible = false) := by
  refine ⟨?_, ?_, ?_⟩
  · intro P settings p
    cases h : settings.visible with
    | none => simp [Visual.mkVisual, jsOrBool, h]
    | some b => cases b <;> simp [Visual.mkVisual, jsOrBool, h]
  · intro P p
    simp [Visual.mkVisual, jsOrBool]
  · intro P settings p
    simp [Visual.setVisible]

/-- The two parameter sets of the C2 race scenario. -/
def slP1 : SpectralLocusParams := SpectralLocusVisual.defaultParams

/-- Second parameter set, differing in the colourspace. -/
def slP2 : SpectralLocusParams :=
  { SpectralLocusVisual.defaultParams with colourspace := "DCI-P3" }

/-- Fresh `SpectralLocusVisual`. -/
def slS0 : VisualState SpectralLocusParams :=
  Visual.initial "spectral-locus-visual" slP1

/-- After the first `add()` (fetch for route 1 in flight). -/
def slS1 : VisualState SpectralLocusParams :=
  Visual.addOp SpectralLocusVisual.route slS0

/-- After the `colourspace` setter fires while fetch 1 is still in flight
(fetches for both routes now in flight). -/
def slS2 : VisualState SpectralLocusParams :=
  Visual.setParamOp SpectralLocusVisual.route (fun _ => slP2) slS1

/-- After the response for route 1 arrives (attaches renderable 1). -/
def slS3 : VisualState SpectralLocusParams :=
  Visual.completeOp SpectralLocusVisual.create (SpectralLocusVisual.route slP1) 0 slS2

/-- After the response for route 2 arrives (attaches renderable 2 without
removing renderable 1). -/
def slS4 : VisualState SpectralLocusParams :=
  Visual.completeOp SpectralLocusVisual.create (SpectralLocusVisual.route slP2) 1 slS3

/-- Counterexample to C2: a reachable interleaving — `add()`, a parameter
switch while the first fetch is in flight, then both fetch completions —
leaves two live renderables named `spectral-locus-visual` attached to the
parent at once. -/
theorem two_live_renderables_counterexample :
    Visual.Reach SpectralLocusVisual.route SpectralLocusVisual.create slS0 slS4 ∧
    countByName slS4.children slS4.name = 2 := by
  constructor
  · exact Visual.Reach.tail
      (Visual.Reach.tail
        (Visual.Reach.tail
          (Visual.Reach.tail (Visual.Reach.refl slS0)
            (Visual.Step.add slS0))
          (Visual.Step.setParam (fun _ => slP2) slS1))
        (Visual.Step.complete (SpectralLocusVisual.route slP1) 0 slS2 (by decide)))
      (Visual.Step.complete (SpectralLocusVisual.route slP2) 1 slS3 (by decide))
  · decide

/-- C2 (amended): the at-most-one-live-renderable invariant holds for every
sequential trace, i.e. whenever `add()` (directly or via a setter) is only
invoked while no fetch is in flight; the unguarded overlap of an `add()`
with an in-flight fetch is exactly what the counterexample exploits, since
the fetch-completion callback attaches without removing. -/
theorem at_most_one_renderable_sequential {P : Type} (route : P → String)
    (create : VisualState P → Nat → Renderable)
    (hcreate : ∀ (u : VisualState P) (g : Nat), (create u g).name = u.name)
    (name : String) (p : P) (t : VisualState P)
    (h : Visual.SeqReach route create (Visual.initial name p) t) :
    countByName t.children t.name ≤ 1 :=
  (Visual.seqReach_inv hcreate h (VInv_initial name p)).1

/-- Witness for the amended C2: a sequential trace — `add()`, its fetch
completion, then a parameter-setter `add()` — never has more than one
attached `spectral-locus-visual` renderable. -/
theorem at_most_one_renderable_sequential_witness :
    countByName
      (Visual.setParamOp SpectralLocusVisual.route (fun _ => slP2)
        (Visual.completeOp SpectralLocusVisual.create (SpectralLocusVisual.route slP1) 0
          slS1)).children
      (Visual.setParamOp SpectralLocusVisual.route (fun _ => slP2)
        (Visual.completeOp SpectralLocusVisual.create (SpectralLocusVisual.route slP1) 0
          slS1)).name ≤ 1 :=
  at_most_one_renderable_sequential SpectralLocusVisual.route SpectralLocusVisual.create
    (fun _ _ => rfl) "spectral-locus-visual" slP1 _
    (Visual.SeqReach.setParam (fun _ => slP2)
      (Visual.SeqReach.complete (SpectralLocusVisual.route slP1) 0
        (Visual.SeqReach.add (Visual.SeqReach.refl _) rfl)
        (by decide))
      (by decide))

/-- A legacy `GamutView` (`part_009`) whose image-scatter Visual is
constructed. -/
def legacyViewWithScatter : GamutViewLegacy :=
  { GamutViewLegacy.initial with
    imageScatterVisual :=
      some (Visual.initial "image-scatter-visual" ImageScatterVisualStatic.defaultParams) }

/-- Counterexample to C4: the `imageColourspace` setter of the legacy
`GamutView` (`part_009`, lines 159-165) performs no validation: assigning
`"Invalid"`, a value outside `["Primary", "Secondary"]`, raises no error,
stores the value, and even propagates it into the scatter Visual's
`colourspace` (note also that this variant's initial value, `'sRGB'`, is
itself outside the claimed two-element set). -/
theorem imageColourspace_no_validation_counterexample :
    ("Invalid" ∈ ["Primary", "Secondary"]) = False ∧
    (GamutViewLegacy.setImageColourspace "Invalid" legacyViewWithScatter).imageColourspace
      = "Invalid" ∧
    ((GamutViewLegacy.setImageColourspace "Invalid" legacyViewWithScatter).imageScatterVisual.map
      (fun s => s.params.colourspace)) = some "Invalid" ∧
    GamutViewLegacy.initial.imageColourspace = "sRGB" := by
  refine ⟨by simp, rfl, ?_, rfl⟩
  decide

/-- C4 (amended): the validating `imageColourspace` setters — on the current
`GamutView` (`src/src/views/gamut-view.js`), on `ImageView` and on
`ImageVisual` — throw the validation error for any value outside
`["Primary", "Secondary"]` before any mutation (so the stored value is
unchanged), store a valid value, and the subsequently computed route
reflects it; the legacy `GamutView` setter of `part_009` is exempt, as the
counterexample shows. -/
theorem imageColourspace_validating_setters (server : Option String) :
    (∀ (view : GamutView) (v : String), v ≠ "Primary" → v ≠ "Secondary" →
      GamutView.setImageColourspace server v view =
        Except.error "\"imageColourspace\" value must be one of [\"Primary\", \"Secondary\"]!") ∧
    (∀ (view : GamutView) (v : String), (v = "Primary" ∨ v = "Secondary") →
      ∃ view', GamutView.setImageColourspace server v view = Except.ok view' ∧
        view'.imageColourspace = v) ∧
    (∀ (view : ImageView) (v : String), v ≠ "Primary" → v ≠ "Secondary" →
      ImageView.setImageColourspace v view =
        Except.error "\"imageColourspace\" value must be one of [\"Primary\", \"Secondary\"]!") ∧
    (∀ (s : VisualState ImageVisualParams) (v : String), v ≠ "Primary" → v ≠ "Secondary" →
      ImageVisual.setImageColourspace v s =
        Except.error "\"imageColourspace\" value must be one of [\"Primary\", \"Secondary\"]!") ∧
    (∀ p : ImageVisualParams,
      ImageVisual.route { p with imageColourspace := "Secondary" } =
        "/image-data/" ++ encodeURIComponent p.image ++ "?" ++
        "primaryColourspace=" ++ encodeURIComponent p.primaryColourspace ++ "&" ++
        "secondaryColourspace=" ++ encodeURIComponent p.secondaryColourspace ++ "&" ++
        "imageColourspace=" ++ "Secondary" ++ "&" ++
        "outOfPrimaryColourspaceGamut=" ++ boolStr p.outOfPrimaryColourspaceGamut ++ "&" ++
        "outOfSecondaryColourspaceGamut=" ++ boolStr p.outOfSecondaryColourspaceGamut ++ "&" ++
        "saturate=" ++ boolStr p.saturate) := by
  refine ⟨?_, ?_, ?_, ?_, ?_⟩
  · intro view v h1 h2
    simp [GamutView.setImageColourspace, h1, h2]
  · intro view v hv
    have h : ¬¬(v = "Primary" ∨ v = "Secondary") := not_not_intro hv
    refine ⟨{ view with
                imageColourspace := v
                imageScatterVisual :=
                  GamutView.propagateImageColourspace server v view.imageScatterVisual
                imageScatterOverlayVisual :=
                  GamutView.propagateImageColourspace server v view.imageScatterOverlayVisual },
            ?_, rfl⟩
    unfold GamutView.setImageColourspace
    rw [if_neg h]
  · intro view v h1 h2
    simp [ImageView.setImageColourspace, h1, h2]
  · intro s v h1 h2
    simp [ImageVisual.setImageColourspace, h1, h2]
  · intro p
    have h : encodeURIComponent "Secondary" = "Secondary" := by decide
    simp [ImageVisual.route, h]

/-- Witness for the amended C4: `"Invalid"` is rejected by the current
`GamutView` setter, `"Secondary"` is accepted and stored, and the default
`ImageVisual` route computed after storing `"Secondary"` carries
`imageColourspace=Secondary`. -/
theorem imageColourspace_validating_setters_witness :
    GamutView.setImageColourspace none "Invalid" GamutView.initial =
      Except.error "\"imageColourspace\" value must be one of [\"Primary\", \"Secondary\"]!" ∧
    (∃ view', GamutView.setImageColourspace none "Secondary" GamutView.initial =
      Except.ok view' ∧ view'.imageColourspace = "Secondary") ∧
    ImageVisual.route { ImageVisual.defaultParams with imageColourspace := "Secondary" } =
      "/image-data/" ++ encodeURIComponent "SonyF35-StillLife.sRGB.exr" ++ "?" ++
      "primaryColourspace=" ++ encodeURIComponent "sRGB" ++ "&" ++
      "secondaryColourspace=" ++ encodeURIComponent "DCI-P3" ++ "&" ++
      "imageColourspace=" ++ "Secondary" ++ "&" ++
      "outOfPrimaryColourspaceGamut=" ++ boolStr false ++ "&" ++
      "outOfSecondaryColourspaceGamut=" ++ boolStr false ++ "&" ++
      "saturate=" ++ boolStr false :=
  ⟨(imageColourspace_validating_setters none).1 GamutView.initial "Invalid"
      (by decide) (by decide),
   (imageColourspace_validating_setters none).2.1 GamutView.initial "Secondary"
      (Or.inr rfl),
   (imageColourspace_validating_setters none).2.2.2.2 ImageVisual.defaultParams⟩

/-- A `ColourspaceVisual` at its constructor defaults (wireframe off). -/
def csDefault : VisualState ColourspaceParams :=
  Visual.initial "colourspace-visual" ColourspaceVisual.defaultParams

/-- Counterexample to C5: the `wireframe` setter is one of the claimed
rendering-only setters, yet the `wireframe` flag is interpolated into
`ColourspaceVisual.route()`, so assigning it changes a route-affecting
parameter: the route computed after `setWireframe true` differs from the
route before, even though no fetch and no `add()` occurred. -/
theorem wireframe_changes_route_counterexample :
    (ColourspaceVisual.setWireframe true csDefault).fetchCount = csDefault.fetchCount ∧
    (ColourspaceVisual.setWireframe true csDefault).pending = csDefault.pending ∧
    ColourspaceVisual.route none (ColourspaceVisual.setWireframe true csDefault).params ≠
      ColourspaceVisual.route none csDefault.params := by
  refine ⟨rfl, rfl, ?_⟩
  decide

/-- C5 (amended): the rendering-attribute setters `uniformOpacity`
(`ColourspaceVisual`, `part_001` lines 269-276), `pointSize`
(`ImageScatterVisual`, `imageScatterVisual.js` lines 79-86) and `wireframe`
(`ColourspaceVisual`, lines 282-289) mutate the corresponding material field
of every cached renderable, trigger no fetch and no `add()` (fetch counter,
pending fetches and parent attachment unchanged), and change no field other
than the one assigned; for `uniformOpacity` and `pointSize` the route is
unchanged, but the `wireframe` flag is part of `ColourspaceVisual`'s route,
so that setter silently changes the route (see the counterexample). -/
theorem rendering_setters_mutate_materials_only (server : Option String) :
    (∀ (s : VisualState ColourspaceParams) (v : Rat),
      (ColourspaceVisual.setUniformOpacity v s).fetchCount = s.fetchCount ∧
      (ColourspaceVisual.setUniformOpacity v s).pending = s.pending ∧
      (ColourspaceVisual.setUniformOpacity v s).children = s.children ∧
      (ColourspaceVisual.setUniformOpacity v s).name = s.name ∧
      ColourspaceVisual.route server (ColourspaceVisual.setUniformOpacity v s).params =
        ColourspaceVisual.route server s.params ∧
      (ColourspaceVisual.setUniformOpacity v s).cache.map Prod.fst =
        s.cache.map Prod.fst ∧
      (∀ e ∈ (ColourspaceVisual.setUniformOpacity v s).cache,
        (Prod.snd e).opacity = v)) ∧
    (∀ (s : VisualState ImageScatterStaticParams) (v : Rat),
      (ImageScatterVisualStatic.setPointSize v s).fetchCount = s.fetchCount ∧
      (ImageScatterVisualStatic.setPointSize v s).pending = s.pending ∧
      (ImageScatterVisualStatic.setPointSize v s).children = s.children ∧
      ImageScatterVisualStatic.route (ImageScatterVisualStatic.setPointSize v s).params =
        ImageScatterVisualStatic.route s.params ∧
      (ImageScatterVisualStatic.setPointSize v s).cache.map Prod.fst =
        s.cache.map Prod.fst ∧
      (∀ e ∈ (ImageScatterVisualStatic.setPointSize v s).cache,
        (Prod.snd e).size = v)) ∧
    (∀ (s : VisualState ColourspaceParams) (v : Bool),
      (ColourspaceVisual.setWireframe v s).fetchCount = s.fetchCount ∧
      (ColourspaceVisual.setWireframe v s).pending = s.pending ∧
      (ColourspaceVisual.setWireframe v s).children = s.children ∧
      (ColourspaceVisual.setWireframe v s).cache.map Prod.fst =
        s.cache.map Prod.fst ∧
      (∀ e ∈ (ColourspaceVisual.setWireframe v s).cache,
        (Prod.snd e).wireframe = v)) := by
  refine ⟨?_, ?_, ?_⟩
  · intro s v
    refine ⟨rfl, rfl, rfl, rfl, rfl, ?_, ?_⟩
    · simp [ColourspaceVisual.setUniformOpacity]
    · intro e he
      simp [ColourspaceVisual.setUniformOpacity, List.mem_map] at he
      obtain ⟨a, w, _, rfl⟩ := he
      rfl
  · intro s v
    refine ⟨rfl, rfl, rfl, rfl, ?_, ?_⟩
    · simp [ImageScatterVisualStatic.setPointSize]
    · intro e he
      simp [ImageScatterVisualStatic.setPointSize, List.mem_map] at he
      obtain ⟨a, w, _, rfl⟩ := he
      rfl
  · intro s v
    refine ⟨rfl, rfl, rfl, ?_, ?_⟩
    · simp [ColourspaceVisual.setWireframe]
    · intro e he
      simp [ColourspaceVisual.setWireframe, List.mem_map] at he
      obtain ⟨a, w, _, rfl⟩ := he
      rfl

/-- A `ColourspaceVisual` whose cache holds one renderable. -/
def csWithCache : VisualState ColourspaceParams :=
  { csDefault with
    cache := [(ColourspaceVisual.route none ColourspaceVisual.defaultParams,
               ⟨"colourspace-visual", true, (0.75 : Rat), false, 0, 0⟩)] }

/-- Witness for the amended C5: on a cached state, the `uniformOpacity`
setter keeps the fetch counter and the route, and the concrete cached
entry's material opacity is mutated to the assigned value. -/
theorem rendering_setters_mutate_materials_only_witness :
    (ColourspaceVisual.setUniformOpacity (0.5 : Rat) csWithCache).fetchCount =
      csWithCache.fetchCount ∧
    ColourspaceVisual.route none
        (ColourspaceVisual.setUniformOpacity (0.5 : Rat) csWithCache).params =
      ColourspaceVisual.route none csWithCache.params ∧
    (Prod.snd (ColourspaceVisual.route none ColourspaceVisual.defaultParams,
      (⟨"colourspace-visual", true, (0.5 : Rat), false, 0, 0⟩ : Renderable))).opacity =
      (0.5 : Rat) :=
  ⟨((rendering_setters_mutate_materials_only none).1 csWithCache (0.5 : Rat)).1,
   ((rendering_setters_mutate_materials_only none).1 csWithCache (0.5 : Rat)).2.2.2.2.1,
   ((rendering_setters_mutate_materials_only none).1 csWithCache (0.5 : Rat)).2.2.2.2.2.2
     (ColourspaceVisual.route none ColourspaceVisual.defaultParams,
      (⟨"colourspace-visual", true, (0.5 : Rat), false, 0, 0⟩ : Renderable))
     (by simp [ColourspaceVisual.setUniformOpacity, csWithCache, csDefault,
               Visual.initial, Visual.mkVisual])⟩

/-- C7: when all constituent Visuals of a `GamutView` are constructed,
assigning `colourspaceModel` stores the value on the view and propagates it
to the `colourspaceModel` setter of each of the eight constituents (view
axes, visible spectrum, spectral locus, pointer gamut, secondary and primary
colourspace, image scatter and overlay); each setter stores the value on its
Visual and independently triggers that Visual's own `add()` (observable as
`addTriggered`: either a fetch for the new route was issued or the cached
renderable was reattached). -/
theorem colourspaceModel_cascades (server : Option String) (value : String)
    (view : GamutView)
    (a : VisualState ViewAxesParams) (b : VisualState VisibleSpectrumParams)
    (c : VisualState SpectralLocusParams) (d : VisualState PointerGamutParams)
    (e f : VisualState ColourspaceParams) (g h : VisualState ImageScatterParams)
    (ha : view.viewAxesVisual = some a)
    (hb : view.visibleSpectrumVisual = some b)
    (hc : view.spectralLocusVisual = some c)
    (hd : view.pointerGamutVisual = some d)
    (he : view.secondaryColourspaceVisual = some e)
    (hf : view.primaryColourspaceVisual = some f)
    (hg : view.imageScatterVisual = some g)
    (hh : view.imageScatterOverlayVisual = some h) :
    (GamutView.setColourspaceModel server value view).colourspaceModel = value ∧
    (GamutView.setColourspaceModel server value view).viewAxesVisual =
      some (ViewAxesVisual.setColourspaceModel value a) ∧
    (GamutView.setColourspaceModel server value view).visibleSpectrumVisual =
      some (VisibleSpectrumVisual.setColourspaceModel server value b) ∧
    (GamutView.setColourspaceModel server value view).spectralLocusVisual =
      some (SpectralLocusVisual.setColourspaceModel value c) ∧
    (GamutView.setColourspaceModel server value view).pointerGamutVisual =
      some (PointerGamutVisual.setColourspaceModel server value d) ∧
    (GamutView.setColourspaceModel server value view).secondaryColourspaceVisual =
      some (ColourspaceVisual.setColourspaceModel server value e) ∧
    (GamutView.setColourspaceModel server value view).primaryColourspaceVisual =
      some (ColourspaceVisual.setColourspaceModel server value f) ∧
    (GamutView.setColourspaceModel server value view).imageScatterVisual =
      some (ImageScatterVisual.setColourspaceModel server value g) ∧
    (GamutView.setColourspaceModel server value view).imageScatterOverlayVisual =
      some (ImageScatterVisual.setColourspaceModel server value h) ∧
    (ViewAxesVisual.setColourspaceModel value a).params.colourspaceModel = value ∧
    (VisibleSpectrumVisual.setColourspaceModel server value b).params.colourspaceModel = value ∧
    (SpectralLocusVisual.setColourspaceModel value c).params.colourspaceModel = value ∧
    (PointerGamutVisual.setColourspaceModel server value d).params.colourspaceModel = value ∧
    (ColourspaceVisual.setColourspaceModel server value e).params.colourspaceModel = value ∧
    (ColourspaceVisual.setColourspaceModel server value f).params.colourspaceModel = value ∧
    (ImageScatterVisual.setColourspaceModel server value g).params.colourspaceModel = value ∧
    (ImageScatterVisual.setColourspaceModel server value h).params.colourspaceModel = value ∧
    addTriggered ViewAxesVisual.route a (ViewAxesVisual.setColourspaceModel value a) ∧
    addTriggered (VisibleSpectrumVisual.route server) b
      (VisibleSpectrumVisual.setColourspaceModel server value b) ∧
    addTriggered SpectralLocusVisual.route c
      (SpectralLocusVisual.setColourspaceModel value c) ∧
    addTriggered (PointerGamutVisual.route server) d
      (PointerGamutVisual.setColourspaceModel server value d) ∧
    addTriggered (ColourspaceVisual.route server) e
      (ColourspaceVisual.setColourspaceModel server value e) ∧
    addTriggered (ColourspaceVisual.route server) f
      (ColourspaceVisual.setColourspaceModel server value f) ∧
    addTriggered (ImageScatterVisual.route server) g
      (ImageScatterVisual.setColourspaceModel server value g) ∧
    addTriggered (ImageScatterVisual.route server) h
      (ImageScatterVisual.setColourspaceModel server value h) := by
  refine ⟨rfl, ?_, ?_, ?_, ?_, ?_, ?_, ?_, ?_,
          ?_, ?_, ?_, ?_, ?_, ?_, ?_, ?_,
          ?_, ?_, ?_, ?_, ?_, ?_, ?_, ?_⟩
  · simp [GamutView.setColourspaceModel, ha]
  · simp [GamutView.setColourspaceModel, hb]
  · simp [GamutView.setColourspaceModel, hc]
  · simp [GamutView.setColourspaceModel, hd]
  · simp [GamutView.setColourspaceModel, he]
  · simp [GamutView.setColourspaceModel, hf]
  · simp [GamutView.setColourspaceModel, hg]
  · simp [GamutView.setColourspaceModel, hh]
  · rw [ViewAxesVisual.setColourspaceModel, Visual.addOp_params]
  · rw [VisibleSpectrumVisual.setColourspaceModel, Visual.addOp_params]
  · rw [SpectralLocusVisual.setColourspaceModel, Visual.addOp_params]
  · rw [PointerGamutVisual.setColourspaceModel, Visual.addOp_params]
  · rw [ColourspaceVisual.setColourspaceModel, Visual.addOp_params]
  · rw [ColourspaceVisual.setColourspaceModel, Visual.addOp_params]
  · rw [ImageScatterVisual.setColourspaceModel, Visual.addOp_params]
  · rw [ImageScatterVisual.setColourspaceModel, Visual.addOp_params]
  · exact Visual.setParamOp_triggered ViewAxesVisual.route
      (fun p => { p with colourspaceModel := value }) a
  · exact Visual.setParamOp_triggered (VisibleSpectrumVisual.route server)
      (fun p => { p with colourspaceModel := value }) b
  · exact Visual.setParamOp_triggered SpectralLocusVisual.route
      (fun p => { p with colourspaceModel := value }) c
  · exact Visual.setParamOp_triggered (PointerGamutVisual.route server)
      (fun p => { p with colourspaceModel := value }) d
  · exact Visual.setParamOp_triggered (ColourspaceVisual.route server)
      (fun p => { p with colourspaceModel := value }) e
  · exact Visual.setParamOp_triggered (ColourspaceVisual.route server)
      (fun p => { p with colourspaceModel := value }) f
  · exact Visual.setParamOp_triggered (ImageScatterVisual.route server)
      (fun p => { p with colourspaceModel := value }) g
  · exact Visual.setParamOp_triggered (ImageScatterVisual.route server)
      (fun p => { p with colourspaceModel := value }) h

/-- A `GamutView` on which every `add…Visual` constituent has been
constructed (with the defaults the respective `add…Visual` methods pass). -/
def fullGamutView : GamutView :=
  { GamutView.initial with
    viewAxesVisual := some (Visual.initial "view-axes-visual" ⟨"CIE xyY"⟩)
    visibleSpectrumVisual := some (Visual.initial "visible-spectrum-visual" ⟨"CIE xyY"⟩)
    spectralLocusVisual :=
      some (Visual.initial "spectral-locus-visual"
        { SpectralLocusVisual.defaultParams with colourspace := "DCI-P3" })
    pointerGamutVisual :=
      some (Visual.initial "pointer-gamut-visual" PointerGamutVisual.defaultParams)
    secondaryColourspaceVisual :=
      some (Visual.initial "secondary-colourspace-visual"
        { ColourspaceVisual.defaultParams with
            colourspace := "DCI-P3"
            wireframe := true
            uniformOpacity := (0.25 : Rat) })
    primaryColourspaceVisual :=
      some (Visual.initial "primary-colourspace-visual" ColourspaceVisual.defaultParams)
    imageScatterVisual :=
      some (Visual.initial "image-scatter-visual" ImageScatterVisual.defaultParams)
    imageScatterOverlayVisual :=
      some (Visual.initial "image-scatter-overlay-visual"
        { ImageScatterVisual.defaultParams with uniformOpacity := (0.5 : Rat) }) }

/-- Witness for C7: on a fully populated view, assigning
`colourspaceModel := "CIE Lab"` stores the value and replaces the spectral
locus constituent with the result of its own `colourspaceModel` setter. -/
theorem colourspaceModel_cascades_witness :
    (GamutView.setColourspaceModel none "CIE Lab" fullGamutView).colourspaceModel
      = "CIE Lab" ∧
    (GamutView.setColourspaceModel none "CIE Lab" fullGamutView).spectralLocusVisual =
      some (SpectralLocusVisual.setColourspaceModel "CIE Lab"
        (Visual.initial "spectral-locus-visual"
          { SpectralLocusVisual.defaultParams with colourspace := "DCI-P3" })) :=
  ⟨(colourspaceModel_cascades none "CIE Lab" fullGamutView
      _ _ _ _ _ _ _ _ rfl rfl rfl rfl rfl rfl rfl rfl).1,
   (colourspaceModel_cascades none "CIE Lab" fullGamutView
      _ _ _ _ _ _ _ _ rfl rfl rfl rfl rfl rfl rfl rfl).2.2.2.1⟩

/-- C9: with all constituent Visuals constructed, `isLoading()` of
`GamutView` returns exactly the boolean OR of the eight constituent
`loading` flags, and of `ImageView` the OR of its two; it is `true` if and
only if at least one constituent Visual is loading. -/
theorem isLoading_aggregates_loading_flags
    (gv : GamutView) (iv : ImageView)
    (a : VisualState ViewAxesParams) (b : VisualState VisibleSpectrumParams)
    (c : VisualState SpectralLocusParams) (d : VisualState PointerGamutParams)
    (e f : VisualState ColourspaceParams) (g h : VisualState ImageScatterParams)
    (x y : VisualState ImageVisualParams)
    (ha : gv.viewAxesVisual = some a)
    (hb : gv.visibleSpectrumVisual = some b)
    (hc : gv.spectralLocusVisual = some c)
    (hd : gv.pointerGamutVisual = some d)
    (he : gv.secondaryColourspaceVisual = some e)
    (hf : gv.primaryColourspaceVisual = some f)
    (hg : gv.imageScatterVisual = some g)
    (hh : gv.imageScatterOverlayVisual = some h)
    (hx : iv.imageVisual = some x)
    (hy : iv.imageOverlayVisual = some y) :
    (GamutView.isLoading gv =
      some (a.loading || b.loading || c.loading || d.loading ||
            e.loading || f.loading || g.loading || h.loading) ∧
     (GamutView.isLoading gv = some true ↔
      (a.loading = true ∨ b.loading = true ∨ c.loading = true ∨ d.loading = true ∨
       e.loading = true ∨ f.loading = true ∨ g.loading = true ∨ h.loading = true))) ∧
    (ImageView.isLoading iv = some (x.loading || y.loading) ∧
     (ImageView.isLoading iv = some true ↔
      (x.loading = true ∨ y.loading = true))) := by
  constructor
  · constructor
    · simp [GamutView.isLoading, ha, hb, hc, hd, he, hf, hg, hh]
    · simp [GamutView.isLoading, ha, hb, hc, hd, he, hf, hg, hh, Bool.or_eq_true, or_assoc]
  · constructor
    · simp [ImageView.isLoading, hx, hy]
    · simp [ImageView.isLoading, hx, hy, Bool.or_eq_true]

/-- An `ImageView` whose two image Visuals are constructed; the overlay is
mid-fetch (its `loading` flag is set). -/
def fullImageView : ImageView :=
  { image := "Rose.ProPhoto.jpg"
    colourspaceModel := "CIE xyY"
    primaryColourspace := "sRGB"
    secondaryColourspace := "DCI-P3"
    imageColourspace := "Primary"
    imageVisual := some (Visual.initial "image-visual" ImageVisual.defaultParams)
    imageOverlayVisual := some
      { Visual.initial "image-overlay-visual"
          { ImageVisual.defaultParams with uniformOpacity := (0.5 : Rat) } with
        loading := true } }

/-- Witness for C9: on concrete views, `GamutView.isLoading` is the OR of
the eight idle flags (`false`) and `ImageView.isLoading` is `true` exactly
because its overlay Visual is loading. -/
theorem isLoading_aggregates_loading_flags_witness :
    GamutView.isLoading fullGamutView =
      some (false || false || false || false || false || false || false || false) ∧
    (ImageView.isLoading fullImageView = some true ↔
      ((Visual.initial "image-visual" ImageVisual.defaultParams).loading = true ∨
       ({ Visual.initial "image-overlay-visual"
            { ImageVisual.defaultParams with uniformOpacity := (0.5 : Rat) } with
          loading := true } : VisualState ImageVisualParams).loading = true)) :=
  ⟨(isLoading_aggregates_loading_flags fullGamutView fullImageView
      _ _ _ _ _ _ _ _ _ _ rfl rfl rfl rfl rfl rfl rfl rfl rfl rfl).1.1,
   (isLoading_aggregates_loading_flags fullGamutView fullImageView
      _ _ _ _ _ _ _ _ _ _ rfl rfl rfl rfl rfl rfl rfl rfl rfl rfl).2.2⟩
